import Mathlib

/-!
Verification of the college-football data-access client (`src/app/services/cfb.service.js`).

The JavaScript source is shallowly embedded: pure computations become Lean
functions, browser/network effects become explicit function arguments
(`fetch`), cheerio selector queries become pre-extracted per-row input
structures, and JavaScript runtime errors (a `throw`, or a `ReferenceError`
from an undefined identifier) become `Except.error`.  JavaScript numbers that
are used as integers are modelled as `Int`/`Nat`; the one `parseFloat` result
(`rating` in the 247 branch) is carried as a `Float` and is never the subject
of a theorem.
-/

namespace SDV

/-! ### JavaScript string and number primitives -/

/-- Whitespace characters relevant to `String.prototype.trim` in this code base. -/
def isJsSpace (c : Char) : Bool :=
  c == ' ' || c == '\t' || c == '\n' || c == '\r'

/-- Embedding of JavaScript `s.trim()`. -/
def jsTrim (s : String) : String :=
  String.mk (((s.toList.dropWhile isJsSpace).reverse.dropWhile isJsSpace).reverse)

/-- The decimal digit character for `n < 10`. -/
def digitChar (n : Nat) : Char :=
  Char.ofNat (48 + n)

/-- Fuel-indexed decimal rendering of a natural number (most significant digit
first).  Fuel `n + 1` always suffices for input `n`, since the argument shrinks
by a factor of ten each step. -/
def toDigits10Aux : Nat → Nat → List Char
  | 0, _ => []
  | fuel + 1, n =>
    if n < 10 then [digitChar n]
    else toDigits10Aux fuel (n / 10) ++ [digitChar (n % 10)]

/-- Embedding of the JavaScript number-to-string conversion applied by template
literals such as `${year}` (for non-negative integral numbers). -/
def jsNatToString (n : Nat) : String :=
  String.mk (toDigits10Aux (n + 1) n)

/-- Decimal digit value of a character, if it is a digit. -/
def digitVal? (c : Char) : Option Nat :=
  if '0' ≤ c ∧ c ≤ '9' then some (c.toNat - 48) else none

/-- Consume leading decimal digits; `none` is returned when no digit was seen,
mirroring `parseInt` evaluating to `NaN`. -/
def parseDigits : List Char → Option Nat → Option Nat
  | [], acc => acc
  | c :: cs, acc =>
    match digitVal? c with
    | some d => parseDigits cs (some (acc.getD 0 * 10 + d))
    | none => acc

/-- Embedding of JavaScript `parseInt(s, 10)`: skip leading whitespace, read an
optional sign and then leading digits; `none` stands for `NaN`. -/
def jsParseInt (s : String) : Option Int :=
  match (jsTrim s).toList with
  | '-' :: rest => (parseDigits rest none).map (fun n => -(n : Int))
  | '+' :: rest => (parseDigits rest none).map (fun n => (n : Int))
  | cs => (parseDigits cs none).map (fun n => (n : Int))

/-- Consume leading decimal digits, returning their value, their count and the
remaining characters. -/
def grabDigitsAcc (v n : Nat) : List Char → Nat × Nat × List Char
  | [] => (v, n, [])
  | c :: cs =>
    match digitVal? c with
    | some d => grabDigitsAcc (v * 10 + d) (n + 1) cs
    | none => (v, n, c :: cs)

/-- Embedding of JavaScript `parseFloat` restricted to plain decimal notation
(optional sign, integer part, optional fraction); an input with no leading
digits yields `NaN`. -/
def jsParseFloat (s : String) : Float :=
  let cs := (jsTrim s).toList
  let signAndRest : Bool × List Char :=
    match cs with
    | '-' :: r => (true, r)
    | '+' :: r => (false, r)
    | _ => (false, cs)
  let (ipVal, ipCount, afterInt) := grabDigitsAcc 0 0 signAndRest.2
  let fracPair : Nat × Nat :=
    match afterInt with
    | '.' :: r =>
      let (v, n, _) := grabDigitsAcc 0 0 r
      (v, n)
    | _ => (0, 0)
  if ipCount + fracPair.2 = 0 then (0.0 : Float) / 0.0
  else
    let mag := Float.ofScientific (ipVal * 10 ^ fracPair.2 + fracPair.1) true fracPair.2
    if signAndRest.1 then -mag else mag

/-- Does `pat` occur at the head of the character list? -/
def matchesAt : List Char → List Char → Bool
  | [], _ => true
  | _ :: _, [] => false
  | p :: ps, c :: cs => p == c && matchesAt ps cs

/-- Character-level worker for `jsReplaceFirst`. -/
def replaceFirstAux (pat rep : List Char) : List Char → List Char
  | [] => if pat.isEmpty then rep else []
  | c :: cs =>
    if matchesAt pat (c :: cs) then rep ++ (c :: cs).drop pat.length
    else c :: replaceFirstAux pat rep cs

/-- Embedding of JavaScript `s.replace(pat, rep)` with a string pattern, which
replaces only the first occurrence. -/
def jsReplaceFirst (s pat rep : String) : String :=
  String.mk (replaceFirstAux pat.toList rep.toList s.toList)

/-- Fuel-indexed worker for `jsSplit`; fuel `length + 1` always suffices since
every step consumes at least one character. -/
def jsSplitAux (sep : List Char) : Nat → List Char → List Char → List (List Char)
  | _, [], cur => [cur.reverse]
  | 0, cs, cur => [cur.reverse ++ cs]
  | fuel + 1, c :: cs, cur =>
    if sep ≠ [] ∧ matchesAt sep (c :: cs) then
      cur.reverse :: jsSplitAux sep fuel ((c :: cs).drop sep.length) []
    else
      jsSplitAux sep fuel cs (c :: cur)

/-- Embedding of JavaScript `s.split(sep)` for a non-empty string separator;
the result is always non-empty. -/
def jsSplit (s sep : String) : List String :=
  (jsSplitAux sep.toList (s.toList.length + 1) s.toList []).map String.mk

/-- Embedding of JavaScript `a || b` for a possibly-undefined string `a`
(`attr(..) || 'uncommitted'`): both `undefined` and the empty string are falsy. -/
def jsOrString (o : Option String) (dflt : String) : String :=
  match o with
  | some t => if t = "" then dflt else t
  | none => dflt

/-- Embedding of JavaScript truthiness for a possibly-undefined number
(`if (year && month && day)`): `undefined` and `0` are falsy. -/
def jsTruthyNat : Option Nat → Bool
  | none => false
  | some n => n != 0

/-- Lower-casing used by `service.toLowerCase()`. -/
def jsToLower (s : String) : String :=
  String.mk (s.toList.map Char.toLower)

/-! ### The incremental scroll loop (`autoScroll`, lines 11-36)

The callback passed to `setInterval` is modelled as a step function on the
state `(totalHeight, attempts, done)`; the page's behaviour is modelled by two
arbitrary functions of the tick index: `rowsAt t` is the number of elements
matching `'table tbody tr'` at tick `t`, and `heightAt t` is the value of
`document.body.scrollHeight` at tick `t`.  `done = true` stands for
`clearInterval` having run, after which the state is frozen. -/

structure ScrollState where
  totalHeight : Nat
  attempts : Nat
  done : Bool

/-- State before the first tick: `totalHeight = 0`, `attempts = 0`. -/
def scrollInit : ScrollState :=
  { totalHeight := 0, attempts := 0, done := false }

/-- One `setInterval` tick of `autoScroll` (source lines 19-33): scroll by the
fixed `distance = 100`, re-count the rows, stop when the row count has reached
`target` or `attempts` has reached the ceiling `maxAttempts = 20`, and
otherwise count an attempt only when the cumulative scrolled distance has
reached the current scrollable height. -/
def scrollTick (rowsAt heightAt : Nat → Nat) (target : Nat) (t : Nat)
    (s : ScrollState) : ScrollState :=
  if s.done then s
  else
    let totalHeight := s.totalHeight + 100
    if target ≤ rowsAt t ∨ 20 ≤ s.attempts then
      { totalHeight := totalHeight, attempts := s.attempts, done := true }
    else if heightAt t ≤ totalHeight then
      { totalHeight := totalHeight, attempts := s.attempts + 1, done := false }
    else
      { totalHeight := totalHeight, attempts := s.attempts, done := false }

/-- The scroll-loop state after `n` ticks. -/
def scrollRun (rowsAt heightAt : Nat → Nat) (target : Nat) : Nat → ScrollState
  | 0 => scrollInit
  | n + 1 => scrollTick rowsAt heightAt target n (scrollRun rowsAt heightAt target n)

/-! ### Request building for `getPlayerRankings` (lines 218-268) -/

/-- A scalar query-parameter value (`null` models a JavaScript `null`, as in
`Position: position` when `position` was not supplied). -/
inductive PValue
  | str (s : String)
  | num (n : Int)
  | null
deriving DecidableEq

/-- A JavaScript `null`-defaulted string option becomes a parameter value. -/
def pvOfOpt : Option String → PValue
  | some s => .str s
  | none => .null

/-- The axios request configuration assembled by `getPlayerRankings`: a URL,
the optional `params` object (absent when `params` was never assigned or
empty), and the headers. -/
structure TargetDescriptor where
  url : String
  params : Option (List (String × PValue))
  headers : List (String × String)
deriving DecidableEq

/-- The `User-Agent` header set for the rankings requests (lines 228-232). -/
def uaHeaders : List (String × String) :=
  [("User-Agent", "Mozilla/5.0 (Windows NT 6.1) AppleWebKit/537.36 (KHTML, like Gecko) Chrome/41.0.2228.0 Safari/537.36")]

/-- Caller options of `getPlayerRankings`; `none` models an omitted property,
so that the destructuring defaults (`page = 1`, `group = "HighSchool"`,
`position = null`, `state = null`, `service = "247Composite"`) apply. -/
structure RankingsOptions where
  year : Nat
  page : Option Nat
  group : Option String
  position : Option String
  state : Option String
  service : Option String

/-- Embedding of the service-dispatch and URL/parameter construction of
`getPlayerRankings` (lines 226-268), up to but not including the network
fetch.  An unrecognized `service` hits the final `else` branch and throws
`"Invalid rankings type"` (line 263).  `axiosConfig.params` is assigned only
when a `params` object was built and is non-empty (lines 266-268); the
`Rivals`, `On3` and `On3Composite` branches never build one. -/
def getPlayerRankingsRequest (o : RankingsOptions) : Except String TargetDescriptor :=
  let page := o.page.getD 1
  let group := o.group.getD "HighSchool"
  let service := o.service.getD "247Composite"
  if service = "247Composite" then
    .ok { url := "http://247sports.com/Season/" ++ jsNatToString o.year ++ "-Football/CompositeRecruitRankings"
          params := some [("InstitutionGroup", .str group), ("Page", .num page),
                          ("Position", pvOfOpt o.position), ("State", pvOfOpt o.state)]
          headers := uaHeaders }
  else if service = "247" then
    .ok { url := "http://247sports.com/Season/" ++ jsNatToString o.year ++ "-Football/recruitrankings"
          params := some [("InstitutionGroup", .str group), ("Page", .num page),
                          ("Position", pvOfOpt o.position), ("State", pvOfOpt o.state)]
          headers := uaHeaders }
  else if service = "Rivals" then
    .ok { url := "https://n.rivals.com/prospect_rankings/rivals250/" ++ jsNatToString o.year
          params := none
          headers := uaHeaders }
  else if service = "On3" then
    .ok { url := "https://www.on3.com/db/rankings/player/football/" ++ jsNatToString o.year ++ "/"
          params := none
          headers := uaHeaders }
  else if service = "On3Composite" then
    .ok { url := "https://www.on3.com/db/rankings/industry-player/football/" ++ jsNatToString o.year ++ "/"
          params := none
          headers := uaHeaders }
  else if service = "ESPN" then
    .ok { url := "https://sports.core.api.espn.com/v2/sports/football/leagues/college-football/recruiting/"
                   ++ jsNatToString o.year ++ "/athletes?page=" ++ jsNatToString page
          params := some [("lang", .str "en"), ("region", .str "us")]
          headers := uaHeaders }
  else .error "Invalid rankings type"

/-- The `params` part of a successfully built rankings request (`none` when
request building threw). -/
def builtParams (o : RankingsOptions) : Option (Option (List (String × PValue))) :=
  match getPlayerRankingsRequest o with
  | .ok d => some d.params
  | .error _ => none

/-! ### Field extraction (lines 280-393 and 466-492)

Each cheerio row query (`$(selector).each`) is modelled by a list of per-row
input structures whose fields are the texts, attribute values and match counts
produced by the sub-selectors on that row. -/

/-- Sub-selector results for one `li.rankings-page__list-item` row of the
247Sports rankings pages (lines 284-300). -/
structure Row247 where
  metricsText : String
  nameLinkText : String
  metaText : String
  positionText : String
  starsCount : Nat
  scoreText : String
  imgTitle : Option String

/-- A player record produced by the 247 branch (lines 288-300). -/
structure Player247 where
  ranking : Int
  name : String
  highSchool : String
  position : String
  height : String
  weight : Int
  stars : Nat
  rating : Float
  college : String

/-- One 247 row mapped to a player record (lines 287-300): `metrics` is the
`.metrics` text split on `/`; `weight` falls back to `0` when `metrics[1]` is
absent, empty, or fails `parseInt`. -/
def mkPlayer247 (rank : Int) (r : Row247) : Player247 :=
  let metrics := jsSplit r.metricsText "/"
  { ranking := rank
    name := jsTrim r.nameLinkText
    highSchool := jsTrim r.metaText
    position := jsTrim r.positionText
    height := jsTrim (metrics.headD "")
    weight :=
      match metrics.get? 1 with
      | some m1 => if m1 = "" then 0 else (jsParseInt (jsTrim m1)).getD 0
      | none => 0
    stars := r.starsCount
    rating := jsParseFloat (jsTrim (jsTrim r.scoreText))
    college := jsOrString r.imgTitle "uncommitted" }

/-- Worker for the 247 branch: `rank` starts at `1 + 50 * (page - 1)` and is
incremented once per pushed row (lines 282, 302-303); every matched row is
pushed, there is no filter. -/
def extract247Go (rank : Int) : List Row247 → List Player247
  | [] => []
  | r :: rs => mkPlayer247 rank r :: extract247Go (rank + 1) rs

/-- The 247/247Composite extraction (lines 280-304). -/
def extract247 (page : Nat) (rows : List Row247) : List Player247 :=
  extract247Go (1 + 50 * ((page : Int) - 1)) rows

/-- Sub-selector results for one Rivals table row (lines 307-322). -/
structure RowRivals where
  posText : String
  ordinalityText : String
  firstNameText : String
  lastNameText : String
  breakTextText : String
  heightText : String
  starOnCount : Nat
  scoreText : String
  schoolNameText : String

/-- A player record produced by the Rivals branch (lines 313-323). -/
structure PlayerRivals where
  ranking : String
  name : String
  highSchool : String
  position : String
  height : String
  weight : String
  stars : Nat
  rating : String
  college : String

/-- One Rivals row mapped to a player record (lines 309-323). -/
def mkPlayerRivals (r : RowRivals) : PlayerRivals :=
  let parts := jsSplit (jsTrim r.posText) "\n\n"
  { ranking := jsTrim r.ordinalityText
    name := jsTrim r.firstNameText ++ " " ++ jsTrim r.lastNameText
    highSchool := jsReplaceFirst (jsTrim r.breakTextText) "\n\n" " "
    position := parts.headD ""
    height := jsTrim r.heightText
    weight := parts.getLastD ""
    stars := r.starOnCount
    rating := jsTrim (jsTrim r.scoreText)
    college := (jsSplit (jsTrim r.schoolNameText) "\n").headD "" }

/-- The Rivals extraction (lines 306-326): every matched row is pushed. -/
def extractRivals (rows : List RowRivals) : List PlayerRivals :=
  rows.map mkPlayerRivals

/-- Sub-selector results for one On3 player-ranking card (lines 329-358). -/
structure RowOn3 where
  committedLogoCount : Nat
  committedLogoTitle : Option String
  predictionCount : Nat
  overallRankText : String
  nameText : String
  highSchoolText : String
  homeTownText : String
  positionText : String
  heightText : String
  starFilledCount : Nat
  overallRatingText : String
  nilValuationText : String

/-- A player record produced by the On3/On3Composite branch (lines 348-359);
`college` is `none` when the committed-logo image exists but carries no
`title` attribute. -/
structure PlayerOn3 where
  ranking : String
  name : String
  highSchool : String
  position : String
  height : String
  weight : Int
  stars : Nat
  college : Option String
  rating : String
  nilValue : String

/-- One On3 card mapped to a player record (lines 330-359); the `weight`
field is the literal `0` (line 354). -/
def mkPlayerOn3 (r : RowOn3) : PlayerOn3 :=
  let college : Option String :=
    if 0 < r.committedLogoCount then r.committedLogoTitle
    else if 0 < r.predictionCount then some "uncommitted"
    else some "unknown"
  { ranking := jsTrim r.overallRankText
    name := jsTrim r.nameText
    highSchool := jsTrim r.highSchoolText ++ " " ++ jsTrim r.homeTownText
    position := jsTrim r.positionText
    height := r.heightText
    weight := 0
    stars := r.starFilledCount
    college := college
    rating := jsTrim r.overallRatingText
    nilValue := jsTrim r.nilValuationText }

/-- The On3/On3Composite extraction (lines 328-363): every matched card is
pushed. -/
def extractOn3 (rows : List RowOn3) : List PlayerOn3 :=
  rows.map mkPlayerOn3

/-- Hometown sub-object of an ESPN recruiting athlete (line 381). -/
structure EspnHometown where
  city : String
  stateAbbreviation : String

/-- Position sub-object of an ESPN recruiting athlete (line 372). -/
structure EspnPosition where
  abbreviation : String

/-- Athlete sub-object of one item of the ESPN recruiting feed. -/
structure EspnAthlete where
  id : Int
  alternateId : Int
  fullName : String
  hometown : EspnHometown
  position : EspnPosition
  height : Int
  weight : Int

/-- One item of `htmlResponse.items` in the ESPN branch (lines 366-392). -/
structure EspnItem where
  athlete : EspnAthlete
  grade : Int

/-- A player record the ESPN branch would produce (lines 376-388). -/
structure PlayerESPN where
  id : Int
  alt_id : Int
  ranking : Int
  name : String
  highSchool : String
  position : String
  height : Int
  weight : Int
  stars : Nat
  college : String
  rating : Int

/-- One iteration of the ESPN `for`-loop (lines 371-391).  The first statement
reads `record.athlete.position.abbreviation` (which succeeds on a well-formed
item), but the next statement evaluates `attributes.find(...)` (line 373) and
the identifier `attributes` is not declared in any enclosing scope of the
module, so the iteration throws a `ReferenceError` before a player record can
be constructed. -/
def espnLoopBody (_rank : Int) (record : EspnItem) : Except String PlayerESPN :=
  let _position := record.athlete.position.abbreviation
  .error "ReferenceError: attributes is not defined"

/-- Worker for the ESPN branch: the loop over `allItems`, threading the
backfill counter `rank` (incremented once per item, line 391); a thrown error
aborts the whole extraction. -/
def extractESPNGo (rank : Int) : List EspnItem → Except String (List PlayerESPN)
  | [] => .ok []
  | r :: rs =>
    match espnLoopBody rank r with
    | .error e => .error e
    | .ok p =>
      match extractESPNGo (rank + 1) rs with
      | .error e => .error e
      | .ok ps => .ok (p :: ps)

/-- The ESPN extraction (lines 365-393): `rank` starts at `1 + 25 * (page - 1)`
(line 369). -/
def extractESPN (page : Nat) (items : List EspnItem) : Except String (List PlayerESPN) :=
  extractESPNGo (1 + 25 * ((page : Int) - 1)) items

/-- Sub-selector results for one `.ri-page__list-item` row of a school's
commit page (lines 466-482). -/
structure RowCommit where
  nameLinkText : String
  metaText : String
  positionText : String
  metricsText : String
  starsCount : Nat
  ratingText : String
  natRankText : String
  stateRankText : String
  posRankText : String

/-- A commit record produced by `getSchoolCommits` (lines 471-482); `height`
and `weight` are the raw split pieces `metrics[0]` and `metrics[1]` (no trim,
no parse), the latter possibly absent. -/
structure PlayerCommit where
  name : String
  highSchool : String
  position : String
  height : String
  weight : Option String
  stars : Nat
  rating : String
  nationalRank : String
  stateRank : String
  positionRank : String

/-- One commit row mapped to a record (lines 467-482). -/
def mkCommit (r : RowCommit) : PlayerCommit :=
  let metrics := jsSplit r.metricsText "/"
  { name := jsTrim r.nameLinkText
    highSchool := jsTrim r.metaText
    position := jsTrim r.positionText
    height := metrics.headD ""
    weight := metrics.get? 1
    stars := r.starsCount
    rating := jsTrim r.ratingText
    nationalRank := jsTrim r.natRankText
    stateRank := jsTrim r.stateRankText
    positionRank := jsTrim r.posRankText }

/-- The `getSchoolCommits` extraction (lines 466-492): every matched row is
mapped, then rows whose `name` or `rating` is the empty string are filtered
out (lines 487-490). -/
def extractSchoolCommits (rows : List RowCommit) : List PlayerCommit :=
  (rows.map mkCommit).filter (fun player => player.name != "" && player.rating != "")

/-! ### The composed `getPlayerRankings` operation -/

/-- Raw content returned by `fetchRankingsData`, modelled as the results each
of the four row/item queries would produce on the fetched document (for an
HTML document, `items` is irrelevant and vice versa). -/
structure RawContent where
  rows247 : List Row247
  rowsRivals : List RowRivals
  rowsOn3 : List RowOn3
  items : List EspnItem

/-- Raw content with no matching rows and no items. -/
def emptyRawContent : RawContent :=
  { rows247 := [], rowsRivals := [], rowsOn3 := [], items := [] }

/-- The `players` value returned by `getPlayerRankings`, tagged by the branch
that filled it; `initial` is the untouched initial empty array (reached only
if no extraction branch matches). -/
inductive PlayersResult
  | initial
  | p247 (l : List Player247)
  | rivals (l : List PlayerRivals)
  | on3 (l : List PlayerOn3)
  | espn (l : List PlayerESPN)

/-- Embedding of the whole `getPlayerRankings` operation (lines 218-396).
The network/browser effect of `fetchRankingsData` is the function argument
`fetch`; when request building throws (unrecognized `service`), `fetch` is
never applied — the error happens before any network activity.  (Source lines
275-277 bind the parsed document with a block-scoped `let $`; the model binds
the fetched document for the subsequent extraction branches, which is how
those branches use it.) -/
def getPlayerRankings (fetch : TargetDescriptor → RawContent)
    (o : RankingsOptions) : Except String PlayersResult :=
  match getPlayerRankingsRequest o with
  | .error e => .error e
  | .ok d =>
    let content := fetch d
    let lower := jsToLower (o.service.getD "247Composite")
    if lower = "247" ∨ lower = "247composite" then
      .ok (.p247 (extract247 (o.page.getD 1) content.rows247))
    else if lower = "rivals" then
      .ok (.rivals (extractRivals content.rowsRivals))
    else if lower = "on3" ∨ lower = "on3composite" then
      .ok (.on3 (extractOn3 content.rowsOn3))
    else if lower = "espn" then
      match extractESPN (o.page.getD 1) content.items with
      | .error e => .error e
      | .ok l => .ok (.espn l)
    else .ok .initial

/-! ### Date parameters for `getSchedule` and `getScoreboard` (lines 536-589) -/

/-- Zero-padding of a month or a day (lines 547, 581):
`parseInt(x) <= 9 ? "0" + parseInt(x) : parseInt(x)`. -/
def pad2 (n : Nat) : String :=
  if n ≤ 9 then "0" ++ jsNatToString n else jsNatToString n

/-- The `dates` template literal `` `${year}${...month...}${...day...}` ``
(lines 547 and 581). -/
def buildDates (year month day : Nat) : String :=
  jsNatToString year ++ pad2 month ++ pad2 day

/-- Caller options of `getSchedule`; `none` models an omitted property. -/
structure ScheduleOptions where
  year : Option Nat
  month : Option Nat
  day : Option Nat
  groups : Option Nat
  seasontype : Option Nat

/-- The query parameters `getSchedule` sends (lines 538-548). -/
structure ScheduleParams where
  groups : Nat
  seasontype : Nat
  xhr : Nat
  render : Bool
  device : String
  userab : Nat
  dates : Option String
deriving DecidableEq

/-- Embedding of the parameter construction of `getSchedule` (lines 536-548):
defaults `groups = 80`, `seasontype = 2`; `dates` is set only under
`if (year && month && day)`. -/
def getScheduleParams (o : ScheduleOptions) : ScheduleParams :=
  { groups := o.groups.getD 80
    seasontype := o.seasontype.getD 2
    xhr := 1
    render := false
    device := "desktop"
    userab := 18
    dates :=
      if jsTruthyNat o.year && jsTruthyNat o.month && jsTruthyNat o.day then
        some (buildDates (o.year.getD 0) (o.month.getD 0) (o.day.getD 0))
      else none }

/-- Caller options of `getScoreboard`; `none` models an omitted property. -/
structure ScoreboardOptions where
  year : Option Nat
  month : Option Nat
  day : Option Nat
  groups : Option Nat
  seasontype : Option Nat
  limit : Option Nat

/-- The query parameters `getScoreboard` sends (lines 575-582). -/
structure ScoreboardParams where
  groups : Nat
  seasontype : Nat
  limit : Nat
  dates : Option String
deriving DecidableEq

/-- Embedding of the parameter construction of `getScoreboard` (lines
572-582): defaults `groups = 80`, `seasontype = 2`, `limit = 300`; `dates` is
set only under `if (year && month && day)`. -/
def getScoreboardParams (o : ScoreboardOptions) : ScoreboardParams :=
  { groups := o.groups.getD 80
    seasontype := o.seasontype.getD 2
    limit := o.limit.getD 300
    dates :=
      if jsTruthyNat o.year && jsTruthyNat o.month && jsTruthyNat o.day then
        some (buildDates (o.year.getD 0) (o.month.getD 0) (o.day.getD 0))
      else none }

/-! ### The `getPicks` projection (lines 175-200) -/

/-- An uninterpreted JSON subtree passed through unchanged by the projection. -/
inductive JVal
  | null
  | str (s : String)
  | num (n : Int)
  | arr (l : List JVal)

/-- One element of `header.competitions`. -/
structure CompetitionData where
  competitors : JVal

/-- The `header` sub-object of a summary response. -/
structure HeaderData where
  id : String
  competitions : List CompetitionData
  season : JVal
  week : JVal

/-- The fields of `res.data` that `getPicks` reads or could read; note the raw
response has distinct `winprobability` and `pickcenter` members. -/
structure SummaryResponse where
  header : HeaderData
  gameInfo : JVal
  leaders : JVal
  winprobability : JVal
  pickcenter : JVal
  againstTheSpread : JVal
  odds : JVal
  standings : JVal

/-- The record `getPicks` returns (lines 185-199). -/
structure PicksResult where
  id : Option Int
  gameInfo : JVal
  leaders : JVal
  header : HeaderData
  teams : JVal
  competitions : List CompetitionData
  winProbability : JVal
  pickcenter : JVal
  againstTheSpread : JVal
  odds : JVal
  season : JVal
  week : JVal
  standings : JVal

/-- Embedding of the projection in `getPicks` (lines 185-199).  `teams` reads
`header.competitions[0].competitors`, which throws when `competitions` is
empty; `id` is `parseInt(header.id)` (`none` models `NaN`); both
`winProbability` and `pickcenter` are projected from `res.data.winprobability`
(lines 192-193). -/
def getPicks (resp : SummaryResponse) : Except String PicksResult :=
  match resp.header.competitions with
  | [] => .error "TypeError: cannot read competitors of undefined"
  | c0 :: _ =>
    .ok { id := jsParseInt resp.header.id
          gameInfo := resp.gameInfo
          leaders := resp.leaders
          header := resp.header
          teams := c0.competitors
          competitions := resp.header.competitions
          winProbability := resp.winprobability
          pickcenter := resp.winprobability
          againstTheSpread := resp.againstTheSpread
          odds := resp.odds
          season := resp.header.season
          week := resp.header.week
          standings := resp.standings }

/-! ## Helper lemmas for the scroll loop -/

/-- A tick on a stopped loop does nothing (`clearInterval` has run). -/
theorem scrollTick_done (rowsAt heightAt : Nat → Nat) (target t : Nat) (s : ScrollState)
    (h : s.done = true) : scrollTick rowsAt heightAt target t s = s := by
  simp [scrollTick, h]

/-- Characterization of a tick on a running loop. -/
theorem scrollTick_not_done (rowsAt heightAt : Nat → Nat) (target t : Nat) (s : ScrollState)
    (h : s.done = false) :
    scrollTick rowsAt heightAt target t s =
      if target ≤ rowsAt t ∨ 20 ≤ s.attempts then
        { totalHeight := s.totalHeight + 100, attempts := s.attempts, done := true }
      else if heightAt t ≤ s.totalHeight + 100 then
        { totalHeight := s.totalHeight + 100, attempts := s.attempts + 1, done := false }
      else
        { totalHeight := s.totalHeight + 100, attempts := s.attempts, done := false } := by
  simp [scrollTick, h]

/-- Once stopped, the loop stays stopped. -/
theorem scrollRun_done_succ (rowsAt heightAt : Nat → Nat) (target n : Nat)
    (h : (scrollRun rowsAt heightAt target n).done = true) :
    (scrollRun rowsAt heightAt target (n + 1)).done = true := by
  rw [scrollRun, scrollTick_done _ _ _ _ _ h]
  exact h

/-- A tick on a running loop adds the fixed `distance = 100` to the scrolled
total, whichever branch it takes. -/
theorem scrollTick_totalHeight (rowsAt heightAt : Nat → Nat) (target t : Nat) (s : ScrollState)
    (h : s.done = false) :
    (scrollTick rowsAt heightAt target t s).totalHeight = s.totalHeight + 100 := by
  rw [scrollTick_not_done _ _ _ _ _ h]
  split
  · rfl
  · split <;> rfl

/-- While the loop is running it has scrolled exactly `100` pixels per tick. -/
theorem scrollRun_totalHeight (rowsAt heightAt : Nat → Nat) (target : Nat) :
    ∀ n, (scrollRun rowsAt heightAt target n).done = false →
      (scrollRun rowsAt heightAt target n).totalHeight = 100 * n := by
  intro n
  induction n with
  | zero => intro _; rfl
  | succ n ih =>
    intro h
    cases hb : (scrollRun rowsAt heightAt target n).done with
    | true =>
      rw [scrollRun, scrollTick_done _ _ _ _ _ hb, hb] at h
      simp at h
    | false =>
      have ht := ih hb
      rw [scrollRun, scrollTick_totalHeight rowsAt heightAt target n _ hb, ht]
      ring

/-- Under a height bound `H`, every tick from tick `H / 100` on increments
`attempts` as long as the loop keeps running. -/
theorem scrollRun_attempts (rowsAt heightAt : Nat → Nat) (target H : Nat)
    (hH : ∀ t, heightAt t ≤ H) :
    ∀ k, (scrollRun rowsAt heightAt target (H / 100 + k)).done = false →
      k ≤ (scrollRun rowsAt heightAt target (H / 100 + k)).attempts := by
  intro k
  induction k with
  | zero => intro _; exact Nat.zero_le _
  | succ k ih =>
    intro h
    have hstep : H / 100 + (k + 1) = (H / 100 + k) + 1 := by omega
    rw [hstep] at h ⊢
    cases hb : (scrollRun rowsAt heightAt target (H / 100 + k)).done with
    | true =>
      rw [scrollRun, scrollTick_done _ _ _ _ _ hb, hb] at h
      simp at h
    | false =>
      have ha := ih hb
      have ht := scrollRun_totalHeight rowsAt heightAt target _ hb
      rw [scrollRun, scrollTick_not_done _ _ _ _ _ hb] at h ⊢
      by_cases hg : target ≤ rowsAt (H / 100 + k) ∨
          20 ≤ (scrollRun rowsAt heightAt target (H / 100 + k)).attempts
      · rw [if_pos hg] at h
        simp at h
      · rw [if_neg hg] at h ⊢
        have hht : heightAt (H / 100 + k) ≤
            (scrollRun rowsAt heightAt target (H / 100 + k)).totalHeight + 100 := by
          have hHt := hH (H / 100 + k)
          rw [ht]
          omega
        rw [if_pos hht]
        simpa using Nat.succ_le_succ ha

/-- Under a height bound `H`, the loop has stopped after `H / 100 + 21`
ticks. -/
theorem scrollRun_stops (rowsAt heightAt : Nat → Nat) (target H : Nat)
    (hH : ∀ t, heightAt t ≤ H) :
    (scrollRun rowsAt heightAt target (H / 100 + 21)).done = true := by
  have h21 : H / 100 + 21 = (H / 100 + 20) + 1 := by omega
  rw [h21]
  cases hb : (scrollRun rowsAt heightAt target (H / 100 + 20)).done with
  | true => exact scrollRun_done_succ _ _ _ _ hb
  | false =>
    have ha := scrollRun_attempts rowsAt heightAt target H hH 20 hb
    rw [scrollRun, scrollTick_not_done _ _ _ _ _ hb, if_pos (Or.inr ha)]

/-- Claim C1 (counterexample): the claimed bound of `target-attempts ×
interval` — at most `20` ticks — fails on the code.  With a page of constant
scrollable height `10000` px and no rows, during the first `21` ticks the
cumulative scrolled distance (`100` px per tick) never reaches the page
height, so `attempts` is never incremented and the loop is still running
after `21` ticks, past the claimed ceiling. -/
theorem autoScroll_bound_counterexample :
    (scrollRun (fun _ => 0) (fun _ => 10000) 250 21).done = false := by decide

/-- Claim C1 (amended): on each tick the loop scrolls by `100` px and stops as
soon as the row count reaches the target or the `attempts` ceiling of `20` is
reached, but `attempts` is counted only on ticks whose cumulative scrolled
distance has reached the page's current scrollable height.  Hence the loop
terminates within `H / 100 + 21` ticks for every page behaviour whose
reported scrollable height is bounded by `H` — not within `20` ticks, and for
behaviours with unboundedly growing height no bound applies. -/
theorem autoScroll_terminates_amended (rowsAt heightAt : Nat → Nat) (target H : Nat)
    (hH : ∀ t, heightAt t ≤ H) :
    (scrollRun rowsAt heightAt target (H / 100 + 21)).done = true ∧
    (∀ t, (scrollRun rowsAt heightAt target t).done = false → target ≤ rowsAt t →
      (scrollRun rowsAt heightAt target (t + 1)).done = true) := by
  refine ⟨scrollRun_stops rowsAt heightAt target H hH, ?_⟩
  intro t hdone hrow
  rw [scrollRun, scrollTick_not_done _ _ _ _ _ hdone, if_pos (Or.inl hrow)]

/-- Claim C1 (witness): a page of constant height `500` px with no rows makes
the loop stop within `500 / 100 + 21 = 26` ticks. -/
theorem autoScroll_terminates_witness :
    (scrollRun (fun _ => 0) (fun _ => 500) 250 (500 / 100 + 21)).done = true :=
  (autoScroll_terminates_amended (fun _ => 0) (fun _ => 500) 250 500
    (fun _ => Nat.le_refl 500)).1

/-- Claim C2: for every service identifier outside the recognized set,
`getPlayerRankings` throws `"Invalid rankings type"` while building the
request, and the whole operation returns that error for *every* possible
fetch behaviour — the result does not depend on `fetch`, so no HTTP request
or browser session is ever consulted. -/
theorem invalid_service_fails_before_fetch (o : RankingsOptions) (s : String)
    (hs : o.service = some s)
    (hmem : s ∉ (["247Composite", "247", "Rivals", "On3", "On3Composite", "ESPN"] : List String)) :
    getPlayerRankingsRequest o = .error "Invalid rankings type" ∧
    ∀ fetch : TargetDescriptor → RawContent,
      getPlayerRankings fetch o = .error "Invalid rankings type" := by
  simp only [List.mem_cons, List.not_mem_nil, or_false, not_or] at hmem
  obtain ⟨h1, h2, h3, h4, h5, h6⟩ := hmem
  have hreq : getPlayerRankingsRequest o = .error "Invalid rankings type" := by
    simp only [getPlayerRankingsRequest, hs, Option.getD_some]
    rw [if_neg h1, if_neg h2, if_neg h3, if_neg h4, if_neg h5, if_neg h6]
  refine ⟨hreq, fun fetch => ?_⟩
  simp only [getPlayerRankings, hreq]

/-- Claim C2 (witness): the unrecognized identifier `"composite"` makes the
operation fail with the fatal input error no matter what a fetch would have
returned. -/
theorem invalid_service_witness :
    getPlayerRankings (fun _ => emptyRawContent)
      ⟨2020, none, none, none, none, some "composite"⟩ = .error "Invalid rankings type" :=
  (invalid_service_fails_before_fetch ⟨2020, none, none, none, none, some "composite"⟩
    "composite" rfl (by decide)).2 (fun _ => emptyRawContent)

/-- Claim C6 (counterexample): `On3` is a recognized vendor other than the
browser-rendered one (`Rivals`), yet its built request carries no query
parameters — refuting "every other recognized vendor's request passes its
parameters as a query string". -/
theorem on3_no_query_counterexample :
    builtParams ⟨2024, none, none, none, none, some "On3"⟩ = some none := rfl

/-- Claim C6 (amended): the `Rivals`, `On3` and `On3Composite` requests carry
no query parameters (their URLs are parameterized by path segments only),
while the `247Composite`, `247` and `ESPN` requests pass a non-empty
parameter object as the query string. -/
theorem query_params_by_vendor (y : Nat) (p : Option Nat) (g pos st : Option String) :
    builtParams ⟨y, p, g, pos, st, some "Rivals"⟩ = some none ∧
    builtParams ⟨y, p, g, pos, st, some "On3"⟩ = some none ∧
    builtParams ⟨y, p, g, pos, st, some "On3Composite"⟩ = some none ∧
    builtParams ⟨y, p, g, pos, st, some "247Composite"⟩ =
      some (some [("InstitutionGroup", PValue.str (g.getD "HighSchool")),
                  ("Page", PValue.num (p.getD 1)),
                  ("Position", pvOfOpt pos), ("State", pvOfOpt st)]) ∧
    builtParams ⟨y, p, g, pos, st, some "247"⟩ =
      some (some [("InstitutionGroup", PValue.str (g.getD "HighSchool")),
                  ("Page", PValue.num (p.getD 1)),
                  ("Position", pvOfOpt pos), ("State", pvOfOpt st)]) ∧
    builtParams ⟨y, p, g, pos, st, some "ESPN"⟩ =
      some (some [("lang", PValue.str "en"), ("region", PValue.str "us")]) :=
  ⟨rfl, rfl, rfl, rfl, rfl, rfl⟩

/-- Claim C7: when the caller omits the option, `getSchedule` and
`getScoreboard` use `groups = 80`, `seasontype = 2` and (scoreboard)
`limit = 300`, and `getPlayerRankings` uses `Page = 1` and
`InstitutionGroup = "HighSchool"`; a caller-supplied value overrides the
default in the built request. -/
theorem default_values_spec :
    (∀ y m d : Option Nat,
      (getScheduleParams ⟨y, m, d, none, none⟩).groups = 80 ∧
      (getScheduleParams ⟨y, m, d, none, none⟩).seasontype = 2) ∧
    (∀ (y m d : Option Nat) (g s : Nat),
      (getScheduleParams ⟨y, m, d, some g, some s⟩).groups = g ∧
      (getScheduleParams ⟨y, m, d, some g, some s⟩).seasontype = s) ∧
    (∀ y m d : Option Nat,
      (getScoreboardParams ⟨y, m, d, none, none, none⟩).groups = 80 ∧
      (getScoreboardParams ⟨y, m, d, none, none, none⟩).seasontype = 2 ∧
      (getScoreboardParams ⟨y, m, d, none, none, none⟩).limit = 300) ∧
    (∀ (y m d : Option Nat) (g s l : Nat),
      (getScoreboardParams ⟨y, m, d, some g, some s, some l⟩).groups = g ∧
      (getScoreboardParams ⟨y, m, d, some g, some s, some l⟩).seasontype = s ∧
      (getScoreboardParams ⟨y, m, d, some g, some s, some l⟩).limit = l) ∧
    (∀ y : Nat,
      getPlayerRankingsRequest ⟨y, none, none, none, none, some "247"⟩ =
        .ok ⟨"http://247sports.com/Season/" ++ jsNatToString y ++ "-Football/recruitrankings",
             some [("InstitutionGroup", PValue.str "HighSchool"),
                   ("Page", PValue.num 1),
                   ("Position", PValue.null), ("State", PValue.null)],
             uaHeaders⟩) ∧
    (∀ (y p : Nat) (g : String),
      getPlayerRankingsRequest ⟨y, some p, some g, none, none, some "247"⟩ =
        .ok ⟨"http://247sports.com/Season/" ++ jsNatToString y ++ "-Football/recruitrankings",
             some [("InstitutionGroup", PValue.str g),
                   ("Page", PValue.num p),
                   ("Position", PValue.null), ("State", PValue.null)],
             uaHeaders⟩) :=
  ⟨fun _ _ _ => ⟨rfl, rfl⟩, fun _ _ _ _ _ => ⟨rfl, rfl⟩,
   fun _ _ _ => ⟨rfl, rfl, rfl⟩, fun _ _ _ _ _ _ => ⟨rfl, rfl, rfl⟩,
   fun _ => rfl, fun _ _ _ => rfl⟩

/-! ## Helper lemmas for decimal rendering -/

/-- A one-digit number renders as one character. -/
theorem toDigits10Aux_len_one (fuel n : Nat) (h : n < 10) :
    (toDigits10Aux (fuel + 1) n).length = 1 := by
  simp [toDigits10Aux, h]

/-- A number with `k + 1` decimal digits renders as `k + 1` characters. -/
theorem toDigits10Aux_len (k : Nat) :
    ∀ fuel n, n < fuel → 10 ^ k ≤ n → n < 10 ^ (k + 1) →
      (toDigits10Aux fuel n).length = k + 1 := by
  induction k with
  | zero =>
    intro fuel n hf h1 h2
    cases fuel with
    | zero => omega
    | succ f =>
      have h10 : n < 10 := by simpa using h2
      simp [toDigits10Aux, h10]
  | succ k ih =>
    intro fuel n hf h1 h2
    cases fuel with
    | zero => omega
    | succ f =>
      have hge : 10 ≤ n := by
        calc (10 : Nat) = 10 ^ 1 := (pow_one 10).symm
        _ ≤ 10 ^ (k + 1) := Nat.pow_le_pow_right (by norm_num) (by omega)
        _ ≤ n := h1
      have h10 : ¬ n < 10 := by omega
      have hrec : n / 10 < f := by omega
      have hlow : 10 ^ k ≤ n / 10 :=
        (Nat.le_div_iff_mul_le (by norm_num)).mpr (by rw [← pow_succ]; exact h1)
      have hhigh : n / 10 < 10 ^ (k + 1) :=
        (Nat.div_lt_iff_lt_mul (by norm_num)).mpr (by rw [← pow_succ]; exact h2)
      rw [toDigits10Aux, if_neg h10, List.length_append,
        ih f (n / 10) hrec hlow hhigh]
      rfl

/-- A number below `10` renders as one character. -/
theorem jsNatToString_len_one (n : Nat) (h : n < 10) : (jsNatToString n).length = 1 :=
  toDigits10Aux_len_one n n h

/-- A number with `k + 1` decimal digits renders as a `k + 1`-character
string. -/
theorem jsNatToString_len (k n : Nat) (h1 : 10 ^ k ≤ n) (h2 : n < 10 ^ (k + 1)) :
    (jsNatToString n).length = k + 1 :=
  toDigits10Aux_len k (n + 1) n (Nat.lt_succ_self n) h1 h2

/-- The zero-padded month/day component is always two characters for inputs
up to `99`. -/
theorem pad2_len (n : Nat) (h : n ≤ 99) : (pad2 n).length = 2 := by
  by_cases h9 : n ≤ 9
  · rw [pad2, if_pos h9, String.length_append, jsNatToString_len_one n (by omega)]
    rfl
  · rw [pad2, if_neg h9]
    exact jsNatToString_len 1 n (by norm_num; omega) (by norm_num; omega)

/-- The `dates` string has exactly `8` characters for four-digit years and
months/days up to two digits. -/
theorem dates_fixed_width (y m d : Nat) (hy1 : 1000 ≤ y) (hy2 : y ≤ 9999)
    (hm : m ≤ 99) (hd : d ≤ 99) : (buildDates y m d).length = 8 := by
  rw [buildDates, String.length_append, String.length_append,
    jsNatToString_len 3 y (by norm_num; omega) (by norm_num; omega),
    pad2_len m hm, pad2_len d hd]

/-- Claim C3: with year, month and day all present (four-digit year, month
and day of at most two digits), `getSchedule` and `getScoreboard` build the
fixed-width 8-character `dates` string `YYYYMMDD` with month and day
zero-padded below `10` — in particular `(2019, 11, 16) ↦ "20191116"` and
`(2019, 1, 5) ↦ "20190105"` — and when year, month or day is absent no
`dates` parameter is included. -/
theorem dates_param_spec :
    (∀ y m d : Nat, 1000 ≤ y → y ≤ 9999 → m ≤ 99 → d ≤ 99 →
      (buildDates y m d).length = 8) ∧
    buildDates 2019 11 16 = "20191116" ∧
    buildDates 2019 1 5 = "20190105" ∧
    (∀ o : ScheduleOptions, o.year = none ∨ o.month = none ∨ o.day = none →
      (getScheduleParams o).dates = none) ∧
    (∀ o : ScoreboardOptions, o.year = none ∨ o.month = none ∨ o.day = none →
      (getScoreboardParams o).dates = none) ∧
    (∀ (o : ScheduleOptions) (y m d : Nat), o.year = some y → o.month = some m →
      o.day = some d → y ≠ 0 → m ≠ 0 → d ≠ 0 →
      (getScheduleParams o).dates = some (buildDates y m d)) ∧
    (∀ (o : ScoreboardOptions) (y m d : Nat), o.year = some y → o.month = some m →
      o.day = some d → y ≠ 0 → m ≠ 0 → d ≠ 0 →
      (getScoreboardParams o).dates = some (buildDates y m d)) := by
  refine ⟨dates_fixed_width, by decide, by decide, ?_, ?_, ?_, ?_⟩
  · rintro o (h | h | h) <;> simp [getScheduleParams, jsTruthyNat, h]
  · rintro o (h | h | h) <;> simp [getScoreboardParams, jsTruthyNat, h]
  · intro o y m d hy hm hd hy0 hm0 hd0
    simp [getScheduleParams, jsTruthyNat, hy, hm, hd, hy0, hm0, hd0]
  · intro o y m d hy hm hd hy0 hm0 hd0
    simp [getScoreboardParams, jsTruthyNat, hy, hm, hd, hy0, hm0, hd0]

/-- Claim C3 (witness): the date rules evaluated at the spec's example
dates. -/
theorem dates_param_witness :
    (buildDates 2019 11 16).length = 8 ∧
    (getScheduleParams ⟨none, some 11, some 16, none, none⟩).dates = none ∧
    (getScoreboardParams ⟨some 2019, none, some 16, none, none, none⟩).dates = none ∧
    (getScheduleParams ⟨some 2019, some 11, some 16, none, none⟩).dates =
      some (buildDates 2019 11 16) ∧
    (getScoreboardParams ⟨some 2019, some 1, some 5, none, none, none⟩).dates =
      some (buildDates 2019 1 5) :=
  ⟨dates_param_spec.1 2019 11 16 (by decide) (by decide) (by decide) (by decide),
   dates_param_spec.2.2.2.1 _ (Or.inl rfl),
   dates_param_spec.2.2.2.2.1 _ (Or.inr (Or.inl rfl)),
   dates_param_spec.2.2.2.2.2.1 _ 2019 11 16 rfl rfl rfl (by decide) (by decide) (by decide),
   dates_param_spec.2.2.2.2.2.2 _ 2019 1 5 rfl rfl rfl (by decide) (by decide) (by decide)⟩

/-! ## Helper lemmas and fixtures for the extraction claims -/

/-- Pointwise-equal functions map lists equally. -/
theorem list_map_ext {α β : Type} (f g : α → β) (l : List α) (h : ∀ a, f a = g a) :
    l.map f = l.map g := by
  induction l with
  | nil => rfl
  | cons x xs ih => simp [h x, ih]

/-- The rankings assigned by the 247 worker are consecutive from its starting
counter. -/
theorem extract247Go_rankings (rows : List Row247) :
    ∀ r0 : Int, (extract247Go r0 rows).map (fun p => p.ranking) =
      (List.range rows.length).map (fun (i : Nat) => r0 + (i : Int)) := by
  induction rows with
  | nil => intro r0; rfl
  | cons r rs ih =>
    intro r0
    rw [List.length_cons, List.range_succ_eq_map]
    simp only [extract247Go, List.map_cons, List.map_map, ih (r0 + 1)]
    refine congr_arg₂ List.cons ?_ ?_
    · simp [mkPlayer247]
    · refine list_map_ext _ _ _ (fun i => ?_)
      simp only [Function.comp_apply]
      push_cast
      ring

/-- A well-populated 247 row. -/
def row247Good : Row247 :=
  { metricsText := "6-2 / 190"
    nameLinkText := "Sample Player"
    metaText := "Some High School"
    positionText := "QB"
    starsCount := 4
    scoreText := "0.9876"
    imgTitle := none }

/-- A decorative/header 247 row: every text sub-selector yields the empty
string. -/
def row247Blank : Row247 :=
  { metricsText := ""
    nameLinkText := ""
    metaText := ""
    positionText := ""
    starsCount := 0
    scoreText := ""
    imgTitle := none }

/-- Ten matched 247 rows, two of them header/decoration rows with empty
name. -/
def rows247Fixture : List Row247 :=
  [row247Good, row247Good, row247Good, row247Good, row247Good, row247Good,
   row247Good, row247Good, row247Blank, row247Blank]

/-- A well-populated school-commit row. -/
def commitRowGood (nm : String) : RowCommit :=
  { nameLinkText := nm
    metaText := "Venice, FL"
    positionText := "QB"
    metricsText := "6-2/210"
    starsCount := 4
    ratingText := "0.9812"
    natRankText := "12"
    stateRankText := "3"
    posRankText := "2" }

/-- A decorative/header school-commit row: every text sub-selector yields the
empty string. -/
def commitRowBlank : RowCommit :=
  { nameLinkText := ""
    metaText := ""
    positionText := ""
    metricsText := ""
    starsCount := 0
    ratingText := ""
    natRankText := ""
    stateRankText := ""
    posRankText := "" }

/-- Ten matched commit rows, two of them header/decoration rows with empty
name and rating. -/
def commitFixture : List RowCommit :=
  [commitRowGood "A", commitRowGood "B", commitRowGood "C", commitRowGood "D",
   commitRowGood "E", commitRowGood "F", commitRowGood "G", commitRowGood "H",
   commitRowBlank, commitRowBlank]

/-- Claim C4: for the vendors whose rank is computed rather than scraped, the
rank of extracted record `i` is `1 + pageSize * (page - 1) + i` — page size
`50` for the 247 recruiting-ranking extraction and `25` for the ESPN
recruiting-feed extraction (whose successful extractions are constrained by
the `attributes` defect, see C8); in particular for `page = 2` the 247 ranks
start at `51` and increase by exactly `1` per record. -/
theorem rank_backfill_formula :
    (∀ (page : Nat) (rows : List Row247),
      (extract247 page rows).map (fun p => p.ranking) =
        (List.range rows.length).map (fun (i : Nat) => 1 + 50 * ((page : Int) - 1) + (i : Int))) ∧
    (∀ (page : Nat) (items : List EspnItem),
      match extractESPN page items with
      | .ok l => l.map (fun p => p.ranking) =
          (List.range l.length).map (fun (i : Nat) => 1 + 25 * ((page : Int) - 1) + (i : Int))
      | .error _ => True) := by
  constructor
  · intro page rows
    exact extract247Go_rankings rows _
  · intro page items
    cases items with
    | nil => simp [extractESPN, extractESPNGo]
    | cons r rs => simp [extractESPN, extractESPNGo, espnLoopBody]

/-- Claim C5 (counterexample): the 247 extraction of `getPlayerRankings` has
no name/rating filter — a fixture of 10 matched rows of which 2 are blank
header/decoration rows yields 10 records (the claim demands 8), and the
output contains records with empty name. -/
theorem no_name_rating_filter_counterexample :
    (extract247 1 rows247Fixture).length = 10 ∧
    ((extract247 1 rows247Fixture).map (fun p => p.name)).contains "" = true :=
  ⟨by decide, by decide⟩

/-- Claim C5 (amended): only the `getSchoolCommits` extraction drops rows
that fail to yield both a non-empty name and a non-empty rating — every
record it returns has non-empty name and rating, and a fixture of 10 matched
rows with 2 blank header rows yields exactly 8 records; the
`getPlayerRankings` HTML-vendor extractions (247, Rivals, On3) return one
record per matched row with no filtering. -/
theorem name_rating_filter_amended :
    (∀ rows : List RowCommit,
      (extractSchoolCommits rows).all (fun p => p.name != "" && p.rating != "") = true) ∧
    (extractSchoolCommits commitFixture).length = 8 ∧
    (∀ (page : Nat) (rows : List Row247), (extract247 page rows).length = rows.length) ∧
    (∀ rows : List RowRivals, (extractRivals rows).length = rows.length) ∧
    (∀ rows : List RowOn3, (extractOn3 rows).length = rows.length) := by
  refine ⟨?_, by decide, ?_, ?_, ?_⟩
  · intro rows
    rw [List.all_eq_true]
    intro p hp
    exact (List.mem_filter.mp hp).2
  · intro page rows
    have h := congrArg List.length (extract247Go_rankings rows (1 + 50 * ((page : Int) - 1)))
    simpa [extract247] using h
  · intro rows
    simp [extractRivals]
  · intro rows
    simp [extractOn3]

/-- Claim C8: the ESPN branch of `getPlayerRankings` reads the undefined
identifier `attributes` (line 373) in its first loop iteration, so for every
non-empty items list the extraction throws a `ReferenceError` instead of
returning records. -/
theorem espn_branch_always_errors (page : Nat) (r : EspnItem) (rs : List EspnItem) :
    extractESPN page (r :: rs) = .error "ReferenceError: attributes is not defined" := rfl

/-- Claim C9: the record returned by `getPicks` has `pickcenter` equal to
`winProbability`, both projected from the raw response's `winprobability`
member; the raw response's own `pickcenter` member never influences the
result. -/
theorem picks_pickcenter_is_winprobability :
    (∀ resp : SummaryResponse,
      match getPicks resp with
      | .ok r => r.pickcenter = resp.winprobability ∧ r.winProbability = resp.winprobability
      | .error _ => True) ∧
    (∀ (resp : SummaryResponse) (pc : JVal),
      getPicks { resp with pickcenter := pc } = getPicks resp) := by
  constructor
  · intro resp
    cases hc : resp.header.competitions with
    | nil => simp [getPicks, hc]
    | cons c0 cs => simp [getPicks, hc]
  · intro resp pc
    rfl

/-- Claim C10: every player record produced by the On3/On3Composite
extraction has `weight = 0`, whatever the scraped page contained. -/
theorem on3_weight_always_zero (rows : List RowOn3) :
    (extractOn3 rows).map (fun p => p.weight) = List.replicate rows.length 0 := by
  induction rows with
  | nil => rfl
  | cons r rs ih =>
    simp only [extractOn3, List.map_cons, List.length_cons, List.replicate_succ] at ih ⊢
    rw [ih]
    simp [mkPlayerOn3]

end SDV
